import Mathlib

/-!
# Verification of the expo-keycloak-client token lifecycle

A shallow embedding of the token lifecycle manager (`auth-token.service.ts`),
the session controller (`auth.service.ts`), the authenticated request gateway
(`auth-rest.service.ts`) and the provider's `logout` flow (`auth.provider.tsx`).

External collaborators (the secure key-value store, `fetch`, JSON parsing) are
modelled as explicit state and oracles:

* the secure store is an association list of string entries plus the set of
  keys whose read currently raises a storage exception;
* each `fetch` call is given its outcome as an argument: `none` means the
  promise rejected (network error), `some resp` is the settled HTTP response;
* `response.json()` is modelled by the `jsonBody` field of a response:
  `none` means the parse rejected, `some r` is the parsed object (the
  TypeScript code casts without validation, so a parse can succeed on any
  response, including error responses).

Effectful methods become pure functions from their inputs and oracles to a
record holding the post-state and an `Except`-style result; a thrown JS
`Error` is an `AuthError` value named after the throw site.
-/

/-- Token response shape from `auth-types.ts` (`AccessTokenRequestResponse`).
The JSON key `"not-before-policy"` is rendered as `notBeforePolicy`. -/
structure AccessTokenRequestResponse where
  access_token : String
  expires_in : Int
  refresh_expires_in : Int
  refresh_token : String
  token_type : String
  id_token : String
  scope : String
  session_state : String
  notBeforePolicy : Int
deriving DecidableEq, Repr

/-- The `TokenSet` returned by `retrieveTokens`: three independently optional
opaque strings (`null` is `none`). -/
structure TokenSet where
  accessToken : Option String
  refreshToken : Option String
  idToken : Option String
deriving DecidableEq, Repr

/-- `TOKEN_STORAGE_KEY.ACCESS_TOKEN` from `auth-token.service.ts`. -/
def ACCESS_TOKEN_KEY : String := "accessToken"

/-- `TOKEN_STORAGE_KEY.REFRESH_TOKEN` from `auth-token.service.ts`. -/
def REFRESH_TOKEN_KEY : String := "refreshToken"

/-- `TOKEN_STORAGE_KEY.ID_TOKEN` from `auth-token.service.ts`. -/
def ID_TOKEN_KEY : String := "idToken"

/-- State of the external secure key-value store (`expo-secure-store`):
the persisted entries, plus the set of keys whose `getItemAsync` currently
raises a storage exception (environment of a particular run). -/
structure SecureStoreState where
  entries : List (String × String)
  failingKeys : List String
deriving DecidableEq, Repr

/-- Lookup of the value stored under a key (no exception modelling). -/
def SecureStoreState.getItem? (s : SecureStoreState) (k : String) : Option String :=
  lookupEntry s.entries k
where
  /-- First value paired with the key in an entry list. -/
  lookupEntry : List (String × String) → String → Option String
    | [], _ => none
    | (k', v) :: rest, k => if k' = k then some v else lookupEntry rest k

/-- Remove every entry under a key from an entry list. -/
def eraseKey : List (String × String) → String → List (String × String)
  | [], _ => []
  | (k', v) :: rest, k =>
    if k' = k then eraseKey rest k else (k', v) :: eraseKey rest k

/-- `SecureStore.setItemAsync`: overwrite the value stored under a key. -/
def SecureStoreState.setItem (s : SecureStoreState) (k v : String) : SecureStoreState :=
  { s with entries := (k, v) :: eraseKey s.entries k }

/-- `SecureStore.deleteItemAsync`: remove the entry under a key (a no-op when
the key is absent). -/
def SecureStoreState.deleteItem (s : SecureStoreState) (k : String) : SecureStoreState :=
  { s with entries := eraseKey s.entries k }

/-- `SecureStore.getItemAsync`: raises (models the promise rejecting) when the
key is in the failing set, otherwise resolves with the stored value or null. -/
def SecureStoreState.readItem (s : SecureStoreState) (k : String) :
    Except String (Option String) :=
  if k ∈ s.failingKeys then .error "storage error" else .ok (s.getItem? k)

/-- JavaScript truthiness of a `string | null` value: `null`, `undefined`
and `""` are falsy. Used for checks such as `if (!tokens?.refreshToken)`. -/
def truthy : Option String → Bool
  | none => false
  | some s => !s.isEmpty

/-- Errors thrown by the services, one constructor per throw site, named after
the spec's taxonomy where it has a name for the site. -/
inductive AuthError where
  /-- `refreshTokens` / `endSession`: "No tokens found". -/
  | noTokens
  /-- `refreshTokens` / `endSession`: "No refresh token found". -/
  | noRefreshToken
  /-- `refreshTokens`: "No client ID found". -/
  | noClientId
  /-- `refreshTokens`: "No token endpoint found". -/
  | noTokenEndpoint
  /-- `requestAccessToken`: "No discovery found". -/
  | noDiscovery
  /-- `requestAccessToken` / `endSession`: "No config found". -/
  | noConfig
  /-- A `fetch` promise rejected (transport-level failure). -/
  | networkError
  /-- A `response.json()` promise rejected (unparseable body). -/
  | jsonParseError
  /-- `refreshTokens`: "Failed to refresh tokens: {status}: {statusText} {body}". -/
  | refreshFailed (status : Nat) (statusText : String) (body : String)
  /-- `endSession`: "Failed to end session: {status}: {statusText} {body}". -/
  | endSessionFailed (status : Nat) (statusText : String) (body : String)
deriving DecidableEq, Repr

/-- The spec's `NotInitializedError` class: missing client id or token
endpoint before use. -/
def AuthError.isNotInitializedClass : AuthError → Bool
  | .noClientId => true
  | .noTokenEndpoint => true
  | _ => false

/-- The four precondition errors of `refreshTokens` (thrown before the
network call). -/
def AuthError.isRefreshPrecondError : AuthError → Bool
  | .noTokens => true
  | .noRefreshToken => true
  | .noClientId => true
  | .noTokenEndpoint => true
  | _ => false

/-- An HTTP response as seen through `fetch`: status line, body text, and the
result of `response.json()` cast (unvalidated) to `AccessTokenRequestResponse`
(`none` when the parse rejects). -/
structure HttpResponse where
  status : Nat
  statusText : String
  body : String
  jsonBody : Option AccessTokenRequestResponse
deriving DecidableEq, Repr

/-- `Response.ok` of the fetch API: status in the inclusive range 200–299. -/
def HttpResponse.ok (r : HttpResponse) : Bool :=
  decide (200 ≤ r.status) && decide (r.status ≤ 299)

/-- In-memory state of the `AuthTokenService` singleton: `_tokenEndpoint` and
`_clientId`, both initialized to `null` by the constructor. -/
structure AuthTokenServiceState where
  tokenEndpoint : Option String
  clientId : Option String
deriving DecidableEq, Repr

/-- The freshly constructed singleton, before `init` ran. -/
def AuthTokenServiceState.initial : AuthTokenServiceState :=
  { tokenEndpoint := none, clientId := none }

/-- `AuthTokenService.init`: records both configuration values (last write
wins). -/
def AuthTokenServiceState.init (_s : AuthTokenServiceState)
    (tokenEndpoint clientId : String) : AuthTokenServiceState :=
  { tokenEndpoint := some tokenEndpoint, clientId := some clientId }

/-- `AuthTokenService.storeTokens`: writes the three token strings of a token
response into the secure store, in source order (access, refresh, id). -/
def storeTokens (s : SecureStoreState) (r : AccessTokenRequestResponse) :
    SecureStoreState :=
  ((s.setItem ACCESS_TOKEN_KEY r.access_token).setItem
      REFRESH_TOKEN_KEY r.refresh_token).setItem
    ID_TOKEN_KEY r.id_token

/-- `AuthTokenService.removeTokens`: deletes the three token keys. -/
def removeTokens (s : SecureStoreState) : SecureStoreState :=
  ((s.deleteItem ACCESS_TOKEN_KEY).deleteItem
      REFRESH_TOKEN_KEY).deleteItem
    ID_TOKEN_KEY

/-- `AuthTokenService.retrieveTokens`: reads the three keys inside a
`try`/`catch`; any storage exception makes the whole result `null`, otherwise
each missing key is a `null` field of the returned `TokenSet`. -/
def retrieveTokens (s : SecureStoreState) : Option TokenSet :=
  match s.readItem ACCESS_TOKEN_KEY, s.readItem REFRESH_TOKEN_KEY,
      s.readItem ID_TOKEN_KEY with
  | .ok a, .ok r, .ok i =>
    some { accessToken := a, refreshToken := r, idToken := i }
  | _, _, _ => none

/-- `AuthTokenService.getAccessToken`: `tokens?.accessToken ?? null`. -/
def getAccessToken (s : SecureStoreState) : Option String :=
  match retrieveTokens s with
  | some ts => ts.accessToken
  | none => none

/-- The form-encoded refresh request `refreshTokens` POSTs to the token
endpoint: `grant_type=refresh_token&client_id={id}&refresh_token={rt}`. -/
structure RefreshRequest where
  url : String
  grantType : String
  clientId : String
  refreshToken : String
deriving DecidableEq, Repr

/-- Result of one `refreshTokens` invocation: the secure store afterwards, the
network request that was issued (`none` when the call failed before reaching
`fetch`), and the value returned or error thrown. -/
structure RefreshRun where
  store : SecureStoreState
  request : Option RefreshRequest
  result : Except AuthError AccessTokenRequestResponse
deriving Repr

/-- `AuthTokenService.refreshTokens`, with the outcome of the single `fetch`
to the token endpoint supplied as an oracle (`none` = the promise rejected).
Mirrors the source order: retrieve tokens, throw on missing tokens / refresh
token / client id / token endpoint (all JS-truthiness checks), then POST; on
`response.ok` parse the JSON and `storeTokens` it, otherwise `removeTokens`
and throw with status, status text and body text. -/
def refreshTokens (svc : AuthTokenServiceState) (s : SecureStoreState)
    (fetchOutcome : Option HttpResponse) : RefreshRun :=
  match retrieveTokens s with
  | none => { store := s, request := none, result := .error .noTokens }
  | some tokens =>
    if truthy tokens.refreshToken then
      if truthy svc.clientId then
        if truthy svc.tokenEndpoint then
          let req : RefreshRequest :=
            { url := svc.tokenEndpoint.getD ""
              grantType := "refresh_token"
              clientId := svc.clientId.getD ""
              refreshToken := tokens.refreshToken.getD "" }
          match fetchOutcome with
          | none => { store := s, request := some req, result := .error .networkError }
          | some resp =>
            if resp.ok then
              match resp.jsonBody with
              | some tokenResponse =>
                { store := storeTokens s tokenResponse
                  request := some req
                  result := .ok tokenResponse }
              | none =>
                { store := s, request := some req, result := .error .jsonParseError }
            else
              { store := removeTokens s
                request := some req
                result := .error (.refreshFailed resp.status resp.statusText resp.body) }
        else { store := s, request := none, result := .error .noTokenEndpoint }
      else { store := s, request := none, result := .error .noClientId }
    else { store := s, request := none, result := .error .noRefreshToken }

/-- The discovery document fields this library reads (`expo-auth-session`'s
`DiscoveryDocument`; both endpoints are optional there). -/
structure DiscoveryDocument where
  tokenEndpoint : Option String
  endSessionEndpoint : Option String
deriving DecidableEq, Repr

/-- `KeycloakClientConfig` from `auth-types.ts`. -/
structure KeycloakClientConfig where
  clientId : String
  issuer : String
  scopes : List String
  signInRedirectUri : String
deriving DecidableEq, Repr

/-- In-memory state of the `AuthService` singleton: `_discovery` and
`_config`, both initialized to `null` by the constructor. -/
structure AuthServiceState where
  discovery : Option DiscoveryDocument
  config : Option KeycloakClientConfig
deriving DecidableEq, Repr

/-- `AuthService.init`: records discovery document and client config. -/
def AuthServiceState.init (_s : AuthServiceState) (d : DiscoveryDocument)
    (c : KeycloakClientConfig) : AuthServiceState :=
  { discovery := some d, config := some c }

/-- `AuthService.requestAccessToken`, with the outcome of the single `fetch`
to the token endpoint as an oracle. The whole body is inside `try`/`catch`
returning `null`, so missing discovery/config, a rejected `fetch` and a
rejected `response.json()` all yield `none`; the parsed JSON is returned
without any check of the response status. -/
def requestAccessToken (svc : AuthServiceState)
    (fetchOutcome : Option HttpResponse) : Option AccessTokenRequestResponse :=
  match svc.discovery, svc.config with
  | some _, some _ =>
    match fetchOutcome with
    | none => none
    | some resp => resp.jsonBody
  | _, _ => none

/-- `AuthService.endSession`, with the outcome of the single `fetch` to the
end-session endpoint as an oracle. Retrieves the tokens, then throws on
missing discovery / config / tokens / refresh token; POSTs the client id and
refresh token; resolves on `response.ok`, otherwise throws with status,
status text and body text. The secure store is never modified. -/
def endSession (svc : AuthServiceState) (s : SecureStoreState)
    (fetchOutcome : Option HttpResponse) : Except AuthError Unit :=
  let tokens := retrieveTokens s
  match svc.discovery with
  | none => .error .noDiscovery
  | some _ =>
    match svc.config with
    | none => .error .noConfig
    | some _ =>
      match tokens with
      | none => .error .noTokens
      | some ts =>
        if truthy ts.refreshToken then
          match fetchOutcome with
          | none => .error .networkError
          | some resp =>
            if resp.ok then .ok ()
            else .error (.endSessionFailed resp.status resp.statusText resp.body)
        else .error .noRefreshToken

/-- `AuthLogoutResult` from `auth-types.ts`. -/
inductive AuthLogoutResult where
  | success
  | failure (error : AuthError)
deriving DecidableEq, Repr

/-- Observable outcome of one `logout()` call: the secure store afterwards,
the provider's `isAuthenticated` state afterwards, and the returned result. -/
structure LogoutRun where
  store : SecureStoreState
  isAuthenticated : Bool
  result : AuthLogoutResult
deriving DecidableEq, Repr

/-- `AuthProvider.logout`: `try { await endSession(); await removeTokens();
setIsAuthenticated(false); return success } catch (e) { return failure e }`.
An exception from `endSession` aborts the `try` block before `removeTokens`
and `setIsAuthenticated(false)` run. -/
def logout (svc : AuthServiceState) (s : SecureStoreState) (isAuth : Bool)
    (endSessionFetch : Option HttpResponse) : LogoutRun :=
  match endSession svc s endSessionFetch with
  | .ok _ =>
    { store := removeTokens s, isAuthenticated := false, result := .success }
  | .error e =>
    { store := s, isAuthenticated := isAuth, result := .failure e }

/-- What the network returns for one attempt of a gateway request, as axios
sees it: a fulfilled 2xx response with a body, or a rejection whose
`error.response.status` is the given non-2xx status. -/
inductive AttemptResult where
  | ok (body : String)
  | httpError (status : Nat)
deriving DecidableEq, Repr

/-- Final outcome of a gateway request as observed by the caller. -/
inductive GatewayOutcome where
  /-- The promise fulfilled with this response body. -/
  | ok (body : String)
  /-- The promise rejected with the axios error of this HTTP status. -/
  | httpError (status : Nat)
  /-- The promise rejected with the error thrown by `refreshTokens`. -/
  | refreshError (e : AuthError)
deriving DecidableEq, Repr

/-- Observable trace of one request sent through the gateway: the secure
store afterwards, how many times `refreshTokens` was invoked, how many
network attempts were made, the `Authorization` header of each attempt in
order, and the outcome delivered to the caller. -/
structure GatewayRun where
  store : SecureStoreState
  refreshCalls : Nat
  attempts : Nat
  authHeaders : List (Option String)
  outcome : GatewayOutcome
deriving Repr

/-- The request interceptor's header: fetch the current access token and, if
truthy, attach it as `Bearer` credential; otherwise leave the header unset. -/
def bearerHeader (s : SecureStoreState) : Option String :=
  match getAccessToken s with
  | some t => if t.isEmpty then none else some ("Bearer " ++ t)
  | none => none

/-- One request through `AuthRestService`'s axios instance, with the network's
reply to the first attempt (`resp1`) and, should a replay happen, to the
second attempt (`resp2`) as oracles, and `refreshFetch` the oracle for the
token-endpoint `fetch` inside `refreshTokens`. A fresh request starts with
`_retry` unset; on a 401 rejection the response interceptor marks it retried,
awaits `refreshTokens` (an exception from it rejects the caller's promise
with that error), re-attaches the current access token, and replays the
original request once — the replayed request's rejection, 401 or not, is
passed through because `_retry` is now set; any non-401 rejection is passed
through untouched. -/
def runGatewayRequest (tsvc : AuthTokenServiceState) (s : SecureStoreState)
    (refreshFetch : Option HttpResponse) (resp1 resp2 : AttemptResult) :
    GatewayRun :=
  let h1 := bearerHeader s
  match resp1 with
  | .ok body =>
    { store := s, refreshCalls := 0, attempts := 1, authHeaders := [h1]
      outcome := .ok body }
  | .httpError status =>
    if status = 401 then
      let rr := refreshTokens tsvc s refreshFetch
      match rr.result with
      | .error e =>
        { store := rr.store, refreshCalls := 1, attempts := 1
          authHeaders := [h1], outcome := .refreshError e }
      | .ok _ =>
        let h2 := match bearerHeader rr.store with
          | some h => some h
          | none => h1
        match resp2 with
        | .ok body =>
          { store := rr.store, refreshCalls := 1, attempts := 2
            authHeaders := [h1, h2], outcome := .ok body }
        | .httpError status2 =>
          { store := rr.store, refreshCalls := 1, attempts := 2
            authHeaders := [h1, h2], outcome := .httpError status2 }
    else
      { store := s, refreshCalls := 0, attempts := 1, authHeaders := [h1]
        outcome := .httpError status }

/-! ## Store lemmas -/

theorem lookupEntry_eraseKey_ne (l : List (String × String)) (k k' : String)
    (h : k' ≠ k) :
    SecureStoreState.getItem?.lookupEntry (eraseKey l k) k' =
      SecureStoreState.getItem?.lookupEntry l k' := by
  induction l with
  | nil => rfl
  | cons p rest ih =>
    obtain ⟨a, b⟩ := p
    by_cases hak : a = k
    · simp [eraseKey, SecureStoreState.getItem?.lookupEntry, hak, Ne.symm h, ih]
    · by_cases hak' : a = k'
      · simp [eraseKey, SecureStoreState.getItem?.lookupEntry, hak, hak', h]
      · simp [eraseKey, SecureStoreState.getItem?.lookupEntry, hak, hak', ih]

theorem lookupEntry_eraseKey_same (l : List (String × String)) (k : String) :
    SecureStoreState.getItem?.lookupEntry (eraseKey l k) k = none := by
  induction l with
  | nil => rfl
  | cons p rest ih =>
    obtain ⟨a, b⟩ := p
    by_cases hak : a = k
    · simp [eraseKey, hak, ih]
    · simp [eraseKey, SecureStoreState.getItem?.lookupEntry, hak, ih]

theorem getItem?_setItem_same (s : SecureStoreState) (k v : String) :
    (s.setItem k v).getItem? k = some v := by
  simp [SecureStoreState.setItem, SecureStoreState.getItem?,
    SecureStoreState.getItem?.lookupEntry]

theorem getItem?_setItem_other (s : SecureStoreState) (k v k' : String)
    (h : k' ≠ k) : (s.setItem k v).getItem? k' = s.getItem? k' := by
  have hk : k ≠ k' := fun hk => h hk.symm
  simp [SecureStoreState.setItem, SecureStoreState.getItem?,
    SecureStoreState.getItem?.lookupEntry, hk, lookupEntry_eraseKey_ne _ _ _ h]

theorem getItem?_deleteItem_same (s : SecureStoreState) (k : String) :
    (s.deleteItem k).getItem? k = none := by
  simp [SecureStoreState.deleteItem, SecureStoreState.getItem?,
    lookupEntry_eraseKey_same]

theorem getItem?_deleteItem_other (s : SecureStoreState) (k k' : String)
    (h : k' ≠ k) : (s.deleteItem k).getItem? k' = s.getItem? k' := by
  simp [SecureStoreState.deleteItem, SecureStoreState.getItem?,
    lookupEntry_eraseKey_ne _ _ _ h]

theorem failingKeys_setItem (s : SecureStoreState) (k v : String) :
    (s.setItem k v).failingKeys = s.failingKeys := rfl

theorem failingKeys_deleteItem (s : SecureStoreState) (k : String) :
    (s.deleteItem k).failingKeys = s.failingKeys := rfl

theorem failingKeys_storeTokens (s : SecureStoreState)
    (r : AccessTokenRequestResponse) :
    (storeTokens s r).failingKeys = s.failingKeys := rfl

theorem failingKeys_removeTokens (s : SecureStoreState) :
    (removeTokens s).failingKeys = s.failingKeys := rfl

theorem storeTokens_getItem_access (s : SecureStoreState)
    (r : AccessTokenRequestResponse) :
    (storeTokens s r).getItem? ACCESS_TOKEN_KEY = some r.access_token := by
  unfold storeTokens
  rw [getItem?_setItem_other _ _ _ _ (by decide),
    getItem?_setItem_other _ _ _ _ (by decide), getItem?_setItem_same]

theorem storeTokens_getItem_refresh (s : SecureStoreState)
    (r : AccessTokenRequestResponse) :
    (storeTokens s r).getItem? REFRESH_TOKEN_KEY = some r.refresh_token := by
  unfold storeTokens
  rw [getItem?_setItem_other _ _ _ _ (by decide), getItem?_setItem_same]

theorem storeTokens_getItem_id (s : SecureStoreState)
    (r : AccessTokenRequestResponse) :
    (storeTokens s r).getItem? ID_TOKEN_KEY = some r.id_token := by
  unfold storeTokens
  rw [getItem?_setItem_same]

theorem removeTokens_getItem_access (s : SecureStoreState) :
    (removeTokens s).getItem? ACCESS_TOKEN_KEY = none := by
  unfold removeTokens
  rw [getItem?_deleteItem_other _ _ _ (by decide),
    getItem?_deleteItem_other _ _ _ (by decide), getItem?_deleteItem_same]

theorem removeTokens_getItem_refresh (s : SecureStoreState) :
    (removeTokens s).getItem? REFRESH_TOKEN_KEY = none := by
  unfold removeTokens
  rw [getItem?_deleteItem_other _ _ _ (by decide), getItem?_deleteItem_same]

theorem removeTokens_getItem_id (s : SecureStoreState) :
    (removeTokens s).getItem? ID_TOKEN_KEY = none := by
  unfold removeTokens
  rw [getItem?_deleteItem_same]

/-- When none of the three token keys is failing, `retrieveTokens` returns the
per-field lookups. -/
theorem retrieveTokens_of_reads_ok (s : SecureStoreState)
    (ha : ACCESS_TOKEN_KEY ∉ s.failingKeys)
    (hr : REFRESH_TOKEN_KEY ∉ s.failingKeys)
    (hi : ID_TOKEN_KEY ∉ s.failingKeys) :
    retrieveTokens s = some
      { accessToken := s.getItem? ACCESS_TOKEN_KEY
        refreshToken := s.getItem? REFRESH_TOKEN_KEY
        idToken := s.getItem? ID_TOKEN_KEY } := by
  simp [retrieveTokens, SecureStoreState.readItem, ha, hr, hi]

/-- When one of the three token keys is failing, `retrieveTokens` returns
`none` for the whole result. -/
theorem retrieveTokens_of_read_fails (s : SecureStoreState)
    (h : ACCESS_TOKEN_KEY ∈ s.failingKeys ∨ REFRESH_TOKEN_KEY ∈ s.failingKeys ∨
      ID_TOKEN_KEY ∈ s.failingKeys) :
    retrieveTokens s = none := by
  unfold retrieveTokens SecureStoreState.readItem
  rcases h with h | h | h
  · simp [h]
  · by_cases ha : ACCESS_TOKEN_KEY ∈ s.failingKeys <;> simp [ha, h]
  · by_cases ha : ACCESS_TOKEN_KEY ∈ s.failingKeys <;>
      by_cases hr : REFRESH_TOKEN_KEY ∈ s.failingKeys <;> simp [ha, hr, h]

/-- A successful `retrieveTokens` means none of the three reads failed. -/
theorem reads_ok_of_retrieveTokens_some (s : SecureStoreState) (ts : TokenSet)
    (h : retrieveTokens s = some ts) :
    ACCESS_TOKEN_KEY ∉ s.failingKeys ∧ REFRESH_TOKEN_KEY ∉ s.failingKeys ∧
      ID_TOKEN_KEY ∉ s.failingKeys := by
  by_cases ha : ACCESS_TOKEN_KEY ∈ s.failingKeys
  · rw [retrieveTokens_of_read_fails s (Or.inl ha)] at h; exact absurd h (by simp)
  · by_cases hr : REFRESH_TOKEN_KEY ∈ s.failingKeys
    · rw [retrieveTokens_of_read_fails s (Or.inr (Or.inl hr))] at h
      exact absurd h (by simp)
    · by_cases hi : ID_TOKEN_KEY ∈ s.failingKeys
      · rw [retrieveTokens_of_read_fails s (Or.inr (Or.inr hi))] at h
        exact absurd h (by simp)
      · exact ⟨ha, hr, hi⟩

/-! ## Refresh protocol lemmas -/

/-- The happy path of `refreshTokens`: preconditions hold and the endpoint
answers 2xx with parseable JSON. -/
theorem refreshTokens_success_eq (svc : AuthTokenServiceState)
    (s : SecureStoreState) (ts : TokenSet) (resp : HttpResponse)
    (tr : AccessTokenRequestResponse)
    (hret : retrieveTokens s = some ts) (hrt : truthy ts.refreshToken = true)
    (hcid : truthy svc.clientId = true) (hte : truthy svc.tokenEndpoint = true)
    (hok : resp.ok = true) (hjson : resp.jsonBody = some tr) :
    refreshTokens svc s (some resp) =
      { store := storeTokens s tr
        request := some
          { url := svc.tokenEndpoint.getD ""
            grantType := "refresh_token"
            clientId := svc.clientId.getD ""
            refreshToken := ts.refreshToken.getD "" }
        result := .ok tr } := by
  unfold refreshTokens
  rw [hret]
  simp [hrt, hcid, hte, hok, hjson]

/-- The failure path of `refreshTokens`: preconditions hold and the endpoint
answers non-2xx. -/
theorem refreshTokens_failure_eq (svc : AuthTokenServiceState)
    (s : SecureStoreState) (ts : TokenSet) (resp : HttpResponse)
    (hret : retrieveTokens s = some ts) (hrt : truthy ts.refreshToken = true)
    (hcid : truthy svc.clientId = true) (hte : truthy svc.tokenEndpoint = true)
    (hok : resp.ok = false) :
    refreshTokens svc s (some resp) =
      { store := removeTokens s
        request := some
          { url := svc.tokenEndpoint.getD ""
            grantType := "refresh_token"
            clientId := svc.clientId.getD ""
            refreshToken := ts.refreshToken.getD "" }
        result := .error (.refreshFailed resp.status resp.statusText resp.body) } := by
  unfold refreshTokens
  rw [hret]
  simp [hrt, hcid, hte, hok]

/-! ## Concrete fixtures -/

/-- A store holding a full token set, with no failing reads. -/
def sampleStore : SecureStoreState :=
  { entries := [(ACCESS_TOKEN_KEY, "a1"), (REFRESH_TOKEN_KEY, "r1"),
      (ID_TOKEN_KEY, "i1")]
    failingKeys := [] }

/-- An initialized token service. -/
def sampleTokenSvc : AuthTokenServiceState :=
  { tokenEndpoint := some "https://kc.example/realms/app/token"
    clientId := some "app-client" }

/-- A fresh token response as returned by the token endpoint. -/
def sampleTokenResponse : AccessTokenRequestResponse :=
  { access_token := "a2", expires_in := 300, refresh_expires_in := 1800
    refresh_token := "r2", token_type := "Bearer", id_token := "i2"
    scope := "openid", session_state := "sess-1", notBeforePolicy := 0 }

/-- A 2xx token-endpoint response whose body parses to `sampleTokenResponse`. -/
def resp200 : HttpResponse :=
  { status := 200, statusText := "OK", body := "tokens-json"
    jsonBody := some sampleTokenResponse }

/-- A non-2xx token-endpoint response. -/
def resp500 : HttpResponse :=
  { status := 500, statusText := "Internal Server Error", body := "boom"
    jsonBody := none }

/-- A 400 response whose body still parses as JSON (as a Keycloak error
response does; the TypeScript cast does not validate the shape). -/
def resp400json : HttpResponse :=
  { status := 400, statusText := "Bad Request", body := "error-json"
    jsonBody := some sampleTokenResponse }

/-- A 400 end-session response. -/
def resp400 : HttpResponse :=
  { status := 400, statusText := "Bad Request", body := "session-error"
    jsonBody := none }

/-- An initialized session controller. -/
def sampleAuthSvc : AuthServiceState :=
  { discovery := some
      { tokenEndpoint := some "https://kc.example/realms/app/token"
        endSessionEndpoint := some "https://kc.example/realms/app/logout" }
    config := some
      { clientId := "app-client", issuer := "https://kc.example/realms/app"
        scopes := ["openid"], signInRedirectUri := "app://signin" } }

/-! ## Claim theorems -/

/-- C1: whenever the stored tokens are retrievable with a refresh token
present, client id and token endpoint are set, and the POST to the token
endpoint returns a non-2xx response, `refreshTokens` deletes all three stored
token entries and throws the refresh-failure error carrying the response's
status code, status text and body; afterwards the store holds none of the
three keys. -/
theorem C1_refresh_non2xx_clears_store_and_throws
    (svc : AuthTokenServiceState) (s : SecureStoreState) (ts : TokenSet)
    (resp : HttpResponse)
    (hret : retrieveTokens s = some ts) (hrt : truthy ts.refreshToken = true)
    (hcid : truthy svc.clientId = true) (hte : truthy svc.tokenEndpoint = true)
    (hok : resp.ok = false) :
    (refreshTokens svc s (some resp)).store.getItem? ACCESS_TOKEN_KEY = none ∧
      (refreshTokens svc s (some resp)).store.getItem? REFRESH_TOKEN_KEY = none ∧
      (refreshTokens svc s (some resp)).store.getItem? ID_TOKEN_KEY = none ∧
      (refreshTokens svc s (some resp)).result =
        .error (.refreshFailed resp.status resp.statusText resp.body) := by
  rw [refreshTokens_failure_eq svc s ts resp hret hrt hcid hte hok]
  exact ⟨removeTokens_getItem_access s, removeTokens_getItem_refresh s,
    removeTokens_getItem_id s, rfl⟩

/-- Witness for C1: a stored session, an initialized service and a 500
response. -/
theorem C1_witness :
    (refreshTokens sampleTokenSvc sampleStore (some resp500)).store.getItem?
        ACCESS_TOKEN_KEY = none ∧
      (refreshTokens sampleTokenSvc sampleStore (some resp500)).store.getItem?
        REFRESH_TOKEN_KEY = none ∧
      (refreshTokens sampleTokenSvc sampleStore (some resp500)).store.getItem?
        ID_TOKEN_KEY = none ∧
      (refreshTokens sampleTokenSvc sampleStore (some resp500)).result =
        .error (.refreshFailed 500 "Internal Server Error" "boom") :=
  C1_refresh_non2xx_clears_store_and_throws sampleTokenSvc sampleStore
    { accessToken := some "a1", refreshToken := some "r1", idToken := some "i1" }
    resp500 rfl rfl rfl rfl rfl

/-- C9: whenever the preconditions hold and the token endpoint answers 2xx
with a parseable JSON token response, `refreshTokens` persists all three of
its token fields wholesale via `storeTokens` — fully overwriting the prior
token set — and returns the parsed response to the caller. -/
theorem C9_refresh_2xx_overwrites_wholesale_and_returns
    (svc : AuthTokenServiceState) (s : SecureStoreState) (ts : TokenSet)
    (resp : HttpResponse) (tr : AccessTokenRequestResponse)
    (hret : retrieveTokens s = some ts) (hrt : truthy ts.refreshToken = true)
    (hcid : truthy svc.clientId = true) (hte : truthy svc.tokenEndpoint = true)
    (hok : resp.ok = true) (hjson : resp.jsonBody = some tr) :
    (refreshTokens svc s (some resp)).result = .ok tr ∧
      (refreshTokens svc s (some resp)).store = storeTokens s tr ∧
      (refreshTokens svc s (some resp)).store.getItem? ACCESS_TOKEN_KEY =
        some tr.access_token ∧
      (refreshTokens svc s (some resp)).store.getItem? REFRESH_TOKEN_KEY =
        some tr.refresh_token ∧
      (refreshTokens svc s (some resp)).store.getItem? ID_TOKEN_KEY =
        some tr.id_token := by
  rw [refreshTokens_success_eq svc s ts resp tr hret hrt hcid hte hok hjson]
  exact ⟨rfl, rfl, storeTokens_getItem_access s tr,
    storeTokens_getItem_refresh s tr, storeTokens_getItem_id s tr⟩

/-- Witness for C9: a stored session, an initialized service and a 200
response. -/
theorem C9_witness :
    (refreshTokens sampleTokenSvc sampleStore (some resp200)).result =
        .ok sampleTokenResponse ∧
      (refreshTokens sampleTokenSvc sampleStore (some resp200)).store =
        storeTokens sampleStore sampleTokenResponse ∧
      (refreshTokens sampleTokenSvc sampleStore (some resp200)).store.getItem?
        ACCESS_TOKEN_KEY = some "a2" ∧
      (refreshTokens sampleTokenSvc sampleStore (some resp200)).store.getItem?
        REFRESH_TOKEN_KEY = some "r2" ∧
      (refreshTokens sampleTokenSvc sampleStore (some resp200)).store.getItem?
        ID_TOKEN_KEY = some "i2" :=
  C9_refresh_2xx_overwrites_wholesale_and_returns sampleTokenSvc sampleStore
    { accessToken := some "a1", refreshToken := some "r1", idToken := some "i1" }
    resp200 sampleTokenResponse rfl rfl rfl rfl rfl rfl

/-- C10: whenever `refreshTokens` throws one of its four precondition errors
(no tokens, no refresh token, no client id, no token endpoint), it performs
no network call and leaves the secure store exactly as it was. -/
theorem C10_refresh_precond_failure_no_call_no_state_change
    (svc : AuthTokenServiceState) (s : SecureStoreState)
    (fetchOutcome : Option HttpResponse) (e : AuthError)
    (hres : (refreshTokens svc s fetchOutcome).result = .error e)
    (hpre : e.isRefreshPrecondError = true) :
    (refreshTokens svc s fetchOutcome).store = s ∧
      (refreshTokens svc s fetchOutcome).request = none := by
  cases hR : retrieveTokens s with
  | none => constructor <;> simp [refreshTokens, hR]
  | some ts =>
    by_cases h1 : truthy ts.refreshToken
    · by_cases h2 : truthy svc.clientId
      · by_cases h3 : truthy svc.tokenEndpoint
        · exfalso
          cases fetchOutcome with
          | none =>
            simp [refreshTokens, hR, h1, h2, h3] at hres
            subst hres
            simp [AuthError.isRefreshPrecondError] at hpre
          | some resp =>
            by_cases hok : resp.ok
            · cases hj : resp.jsonBody with
              | some tr =>
                simp [refreshTokens, hR, h1, h2, h3, hok, hj] at hres
              | none =>
                simp [refreshTokens, hR, h1, h2, h3, hok, hj] at hres
                subst hres
                simp [AuthError.isRefreshPrecondError] at hpre
            · simp [refreshTokens, hR, h1, h2, h3, hok] at hres
              subst hres
              simp [AuthError.isRefreshPrecondError] at hpre
        · constructor <;> simp [refreshTokens, hR, h1, h2, h3]
      · constructor <;> simp [refreshTokens, hR, h1, h2]
    · constructor <;> simp [refreshTokens, hR, h1]

/-- Witness for C10: an empty store (no refresh token) with an initialized
service; the run changes nothing and issues no request. -/
theorem C10_witness :
    (refreshTokens sampleTokenSvc { entries := [], failingKeys := [] }
        (some resp200)).store = { entries := [], failingKeys := [] } ∧
      (refreshTokens sampleTokenSvc { entries := [], failingKeys := [] }
        (some resp200)).request = none :=
  C10_refresh_precond_failure_no_call_no_state_change sampleTokenSvc
    { entries := [], failingKeys := [] } (some resp200) .noRefreshToken rfl rfl

/-- Round-trip of `storeTokens` with `retrieveTokens` (helper shared by the
round-trip claim and the gateway development). -/
theorem retrieveTokens_storeTokens (s : SecureStoreState)
    (r : AccessTokenRequestResponse)
    (ha : ACCESS_TOKEN_KEY ∉ s.failingKeys)
    (hr : REFRESH_TOKEN_KEY ∉ s.failingKeys)
    (hi : ID_TOKEN_KEY ∉ s.failingKeys) :
    retrieveTokens (storeTokens s r) = some
      { accessToken := some r.access_token
        refreshToken := some r.refresh_token
        idToken := some r.id_token } := by
  have ha' : ACCESS_TOKEN_KEY ∉ (storeTokens s r).failingKeys := by
    rw [failingKeys_storeTokens]; exact ha
  have hr' : REFRESH_TOKEN_KEY ∉ (storeTokens s r).failingKeys := by
    rw [failingKeys_storeTokens]; exact hr
  have hi' : ID_TOKEN_KEY ∉ (storeTokens s r).failingKeys := by
    rw [failingKeys_storeTokens]; exact hi
  rw [retrieveTokens_of_reads_ok _ ha' hr' hi', storeTokens_getItem_access,
    storeTokens_getItem_refresh, storeTokens_getItem_id]

/-- After a successful `storeTokens` of a response with a non-empty access
token, the request interceptor attaches the new bearer credential. -/
theorem bearerHeader_storeTokens (s : SecureStoreState)
    (r : AccessTokenRequestResponse)
    (ha : ACCESS_TOKEN_KEY ∉ s.failingKeys)
    (hr : REFRESH_TOKEN_KEY ∉ s.failingKeys)
    (hi : ID_TOKEN_KEY ∉ s.failingKeys)
    (hne : r.access_token ≠ "") :
    bearerHeader (storeTokens s r) = some ("Bearer " ++ r.access_token) := by
  unfold bearerHeader getAccessToken
  rw [retrieveTokens_storeTokens s r ha hr hi]
  simp [String.isEmpty_iff, hne]

/-- C2 counterexample: called before `init` on an empty store, `refreshTokens`
throws the no-refresh-token error, which is not of the not-initialized class
(the token checks run first in the source). -/
theorem C2_counterexample :
    (refreshTokens AuthTokenServiceState.initial
        { entries := [], failingKeys := [] } none).result =
        .error .noRefreshToken ∧
      AuthError.noRefreshToken.isNotInitializedClass = false :=
  ⟨rfl, rfl⟩

/-- C2 as amended: before `init` (client id unset), with tokens retrievable
and a refresh token present, `refreshTokens` throws a not-initialized-class
error (specifically the missing-client-id error), regardless of the fetch
environment. -/
theorem C2_amended_uninit_refresh_throws_not_initialized
    (svc : AuthTokenServiceState) (s : SecureStoreState) (ts : TokenSet)
    (fetchOutcome : Option HttpResponse)
    (hcid : svc.clientId = none)
    (hret : retrieveTokens s = some ts)
    (hrt : truthy ts.refreshToken = true) :
    (refreshTokens svc s fetchOutcome).result = .error .noClientId ∧
      AuthError.noClientId.isNotInitializedClass = true := by
  refine ⟨?_, rfl⟩
  have htn : truthy none = false := rfl
  unfold refreshTokens
  rw [hret]
  simp [hrt, hcid, htn]

/-- Witness for C2's amended theorem: the uninitialized singleton holding a
full stored session. -/
theorem C2_witness :
    (refreshTokens AuthTokenServiceState.initial sampleStore none).result =
        .error .noClientId ∧
      AuthError.noClientId.isNotInitializedClass = true :=
  C2_amended_uninit_refresh_throws_not_initialized
    AuthTokenServiceState.initial sampleStore
    { accessToken := some "a1", refreshToken := some "r1", idToken := some "i1" }
    none rfl rfl rfl

/-- C3 counterexample: with a 400 end-session response, `logout()` returns a
failure result but does not delete the stored tokens and does not set
`isAuthenticated` to `false` — `endSession` throws before `removeTokens` and
`setIsAuthenticated(false)` run. -/
theorem C3_counterexample :
    (logout sampleAuthSvc sampleStore true (some resp400)).store.getItem?
        ACCESS_TOKEN_KEY = some "a1" ∧
      (logout sampleAuthSvc sampleStore true (some resp400)).store.getItem?
        REFRESH_TOKEN_KEY = some "r1" ∧
      (logout sampleAuthSvc sampleStore true (some resp400)).isAuthenticated =
        true ∧
      (logout sampleAuthSvc sampleStore true (some resp400)).result =
        .failure (.endSessionFailed 400 "Bad Request" "session-error") :=
  ⟨rfl, rfl, rfl, rfl⟩

/-- C3 as amended: when `endSession` fails, `logout()` returns a failure
result carrying the underlying error, and leaves the stored tokens and the
`isAuthenticated` state unchanged (local state is cleared only when
`endSession` succeeds). -/
theorem C3_amended_logout_failure_keeps_local_state
    (svc : AuthServiceState) (s : SecureStoreState) (isAuth : Bool)
    (fetchOutcome : Option HttpResponse) (e : AuthError)
    (h : endSession svc s fetchOutcome = .error e) :
    logout svc s isAuth fetchOutcome =
      { store := s, isAuthenticated := isAuth, result := .failure e } := by
  unfold logout
  rw [h]

/-- Witness for C3's amended theorem: the 400 end-session response. -/
theorem C3_witness :
    logout sampleAuthSvc sampleStore true (some resp400) =
      { store := sampleStore, isAuthenticated := true
        result := .failure (.endSessionFailed 400 "Bad Request" "session-error") } :=
  C3_amended_logout_failure_keeps_local_state sampleAuthSvc sampleStore true
    (some resp400) (.endSessionFailed 400 "Bad Request" "session-error") rfl

/-- C4 counterexample: a non-2xx token-endpoint response whose body parses as
JSON is returned non-null by `requestAccessToken` — the source never checks
the response status. -/
theorem C4_counterexample :
    requestAccessToken sampleAuthSvc (some resp400json) =
        some sampleTokenResponse ∧
      resp400json.ok = false :=
  ⟨rfl, rfl⟩

/-- C4 as amended: `requestAccessToken` returns `null` exactly on the caught
failures — missing discovery or config, a rejected `fetch`, or a response
body that fails JSON parsing; a settled response whose body parses as JSON is
returned to the caller whatever its HTTP status (the status is never
inspected). -/
theorem C4_amended_soft_fail_contract (svc : AuthServiceState)
    (fetchOutcome : Option HttpResponse) :
    ((svc.discovery = none ∨ svc.config = none ∨ fetchOutcome = none ∨
        (∃ resp, fetchOutcome = some resp ∧ resp.jsonBody = none)) →
      requestAccessToken svc fetchOutcome = none) ∧
    (∀ d c resp tr, svc.discovery = some d → svc.config = some c →
      fetchOutcome = some resp → resp.jsonBody = some tr →
      requestAccessToken svc fetchOutcome = some tr) := by
  constructor
  · rintro (h | h | h | ⟨resp, hfo, hj⟩)
    · simp [requestAccessToken, h]
    · cases hd : svc.discovery <;> simp [requestAccessToken, hd, h]
    · cases hd : svc.discovery <;> cases hc : svc.config <;>
        simp [requestAccessToken, hd, hc, h]
    · subst hfo
      cases hd : svc.discovery <;> cases hc : svc.config <;>
        simp [requestAccessToken, hd, hc, hj]
  · rintro d c resp tr hd hc hfo hj
    subst hfo
    simp [requestAccessToken, hd, hc, hj]

/-- Witness for C4's amended theorem: a missing-config failure yields null,
and a parsed 200 response is returned. -/
theorem C4_witness :
    requestAccessToken { discovery := none, config := none } none = none ∧
      requestAccessToken sampleAuthSvc (some resp200) =
        some sampleTokenResponse :=
  ⟨(C4_amended_soft_fail_contract { discovery := none, config := none }
      none).1 (Or.inl rfl),
    (C4_amended_soft_fail_contract sampleAuthSvc (some resp200)).2 _ _ _ _
      rfl rfl rfl rfl⟩

/-- C7: for every token response written via `storeTokens` (when no storage
read is failing), an immediately following `retrieveTokens` returns the three
written values. -/
theorem C7_store_retrieve_roundtrip (s : SecureStoreState)
    (r : AccessTokenRequestResponse)
    (ha : ACCESS_TOKEN_KEY ∉ s.failingKeys)
    (hr : REFRESH_TOKEN_KEY ∉ s.failingKeys)
    (hi : ID_TOKEN_KEY ∉ s.failingKeys) :
    retrieveTokens (storeTokens s r) = some
      { accessToken := some r.access_token
        refreshToken := some r.refresh_token
        idToken := some r.id_token } :=
  retrieveTokens_storeTokens s r ha hr hi

/-- Witness for C7: storing the sample response over the sample store. -/
theorem C7_witness :
    retrieveTokens (storeTokens sampleStore sampleTokenResponse) = some
      { accessToken := some "a2", refreshToken := some "r2"
        idToken := some "i2" } :=
  C7_store_retrieve_roundtrip sampleStore sampleTokenResponse
    (by simp [sampleStore]) (by simp [sampleStore]) (by simp [sampleStore])

/-- C8: when any of the three storage reads raises, `retrieveTokens` returns
`none` for the whole result (never letting the exception escape, since it is
a total function into `Option`); when all reads succeed it returns a token
set in which each missing key is `null`. -/
theorem C8_retrieve_whole_null_on_exception (s : SecureStoreState) :
    ((ACCESS_TOKEN_KEY ∈ s.failingKeys ∨ REFRESH_TOKEN_KEY ∈ s.failingKeys ∨
        ID_TOKEN_KEY ∈ s.failingKeys) → retrieveTokens s = none) ∧
      (ACCESS_TOKEN_KEY ∉ s.failingKeys → REFRESH_TOKEN_KEY ∉ s.failingKeys →
        ID_TOKEN_KEY ∉ s.failingKeys → retrieveTokens s = some
          { accessToken := s.getItem? ACCESS_TOKEN_KEY
            refreshToken := s.getItem? REFRESH_TOKEN_KEY
            idToken := s.getItem? ID_TOKEN_KEY }) :=
  ⟨retrieveTokens_of_read_fails s, retrieveTokens_of_reads_ok s⟩

/-- Witness for C8: a store whose refresh-token read raises yields a whole
`none`; a store with only an access token yields per-field nulls. -/
theorem C8_witness :
    retrieveTokens
        { entries := [(ACCESS_TOKEN_KEY, "a1")],
          failingKeys := [REFRESH_TOKEN_KEY] } = none ∧
      retrieveTokens
        { entries := [(ACCESS_TOKEN_KEY, "a1")], failingKeys := [] } = some
          { accessToken := some "a1", refreshToken := none, idToken := none } :=
  ⟨(C8_retrieve_whole_null_on_exception _).1 (Or.inr (Or.inl (by simp))),
    (C8_retrieve_whole_null_on_exception _).2 (by simp) (by simp) (by simp)⟩

/-- Structural bound of the retry protocol: any gateway request performs at
most one refresh and at most two network attempts. -/
theorem runGatewayRequest_bounds (tsvc : AuthTokenServiceState)
    (s : SecureStoreState) (refreshFetch : Option HttpResponse)
    (r1 r2 : AttemptResult) :
    (runGatewayRequest tsvc s refreshFetch r1 r2).refreshCalls ≤ 1 ∧
      (runGatewayRequest tsvc s refreshFetch r1 r2).attempts ≤ 2 := by
  cases r1 with
  | ok body => simp [runGatewayRequest]
  | httpError st =>
    by_cases h : st = 401
    · subst h
      cases hres : (refreshTokens tsvc s refreshFetch).result with
      | error e => simp [runGatewayRequest, hres]
      | ok tr => cases r2 <;> simp [runGatewayRequest, hres]
    · simp [runGatewayRequest, h]

/-- C5: every gateway request performs at most one refresh and at most one
replay; a request whose first response is 401 (with the refresh environment
healthy) causes exactly one refresh and exactly one retry carrying the new
bearer token, and a second 401 on the retry propagates to the caller with no
second refresh. -/
theorem C5_gateway_401_one_refresh_one_retry
    (tsvc : AuthTokenServiceState) (s : SecureStoreState) (ts : TokenSet)
    (resp : HttpResponse) (tr : AccessTokenRequestResponse)
    (resp2 : AttemptResult)
    (hret : retrieveTokens s = some ts) (hrt : truthy ts.refreshToken = true)
    (hcid : truthy tsvc.clientId = true)
    (hte : truthy tsvc.tokenEndpoint = true)
    (hok : resp.ok = true) (hjson : resp.jsonBody = some tr)
    (hne : tr.access_token ≠ "") :
    (runGatewayRequest tsvc s (some resp) (.httpError 401) resp2).refreshCalls
        = 1 ∧
      (runGatewayRequest tsvc s (some resp) (.httpError 401) resp2).attempts
        = 2 ∧
      (runGatewayRequest tsvc s (some resp) (.httpError 401) resp2).authHeaders
        = [bearerHeader s, some ("Bearer " ++ tr.access_token)] ∧
      (∀ st2, resp2 = .httpError st2 →
        (runGatewayRequest tsvc s (some resp) (.httpError 401) resp2).outcome
          = .httpError st2) ∧
      (∀ r1 r2, (runGatewayRequest tsvc s (some resp) r1 r2).refreshCalls ≤ 1 ∧
        (runGatewayRequest tsvc s (some resp) r1 r2).attempts ≤ 2) := by
  obtain ⟨ha, hr, hi⟩ := reads_ok_of_retrieveTokens_some s ts hret
  have hrr := refreshTokens_success_eq tsvc s ts resp tr hret hrt hcid hte
    hok hjson
  have hb := bearerHeader_storeTokens s tr ha hr hi hne
  refine ⟨?_, ?_, ?_, ?_, fun r1 r2 => runGatewayRequest_bounds tsvc s _ r1 r2⟩
  · cases resp2 <;> simp [runGatewayRequest, hrr]
  · cases resp2 <;> simp [runGatewayRequest, hrr]
  · cases resp2 <;> simp [runGatewayRequest, hrr, hb]
  · intro st2 h2
    subst h2
    simp [runGatewayRequest, hrr]

/-- Witness for C5: a stored session, 401 on the first attempt, a healthy
refresh, and a second 401 on the replay. -/
theorem C5_witness :
    (runGatewayRequest sampleTokenSvc sampleStore (some resp200)
        (.httpError 401) (.httpError 401)).refreshCalls = 1 ∧
      (runGatewayRequest sampleTokenSvc sampleStore (some resp200)
        (.httpError 401) (.httpError 401)).attempts = 2 ∧
      (runGatewayRequest sampleTokenSvc sampleStore (some resp200)
        (.httpError 401) (.httpError 401)).authHeaders =
          [some "Bearer a1", some "Bearer a2"] ∧
      (∀ st2, (AttemptResult.httpError 401 : AttemptResult)
          = .httpError st2 →
        (runGatewayRequest sampleTokenSvc sampleStore (some resp200)
          (.httpError 401) (.httpError 401)).outcome = .httpError st2) ∧
      (∀ r1 r2, (runGatewayRequest sampleTokenSvc sampleStore (some resp200)
          r1 r2).refreshCalls ≤ 1 ∧
        (runGatewayRequest sampleTokenSvc sampleStore (some resp200)
          r1 r2).attempts ≤ 2) :=
  C5_gateway_401_one_refresh_one_retry sampleTokenSvc sampleStore
    { accessToken := some "a1", refreshToken := some "r1", idToken := some "i1" }
    resp200 sampleTokenResponse (.httpError 401) rfl rfl rfl rfl rfl rfl
    (by decide)

/-- C6: a non-401 first rejection propagates unchanged with no refresh; when
the refresh triggered by a first 401 itself throws, that refresh error (not
the original 401) propagates, with no replay; and a replayed request that is
rejected again propagates that rejection with no second refresh. -/
theorem C6_gateway_error_propagation
    (tsvc : AuthTokenServiceState) (s : SecureStoreState)
    (refreshFetch : Option HttpResponse) (resp2 : AttemptResult) :
    (∀ st, st ≠ 401 →
      runGatewayRequest tsvc s refreshFetch (.httpError st) resp2 =
        { store := s, refreshCalls := 0, attempts := 1
          authHeaders := [bearerHeader s], outcome := .httpError st }) ∧
    (∀ e, (refreshTokens tsvc s refreshFetch).result = .error e →
      (runGatewayRequest tsvc s refreshFetch (.httpError 401) resp2).outcome
          = .refreshError e ∧
        (runGatewayRequest tsvc s refreshFetch (.httpError 401) resp2).attempts
          = 1) ∧
    (∀ tr st2, (refreshTokens tsvc s refreshFetch).result = .ok tr →
      resp2 = .httpError st2 →
      (runGatewayRequest tsvc s refreshFetch (.httpError 401) resp2).outcome
          = .httpError st2 ∧
        (runGatewayRequest tsvc s refreshFetch (.httpError 401)
          resp2).refreshCalls = 1) := by
  refine ⟨?_, ?_, ?_⟩
  · intro st hst
    simp [runGatewayRequest, hst]
  · intro e he
    constructor <;> simp [runGatewayRequest, he]
  · intro tr st2 hTr h2
    subst h2
    constructor <;> simp [runGatewayRequest, hTr]

/-- Witness for C6: a 500 first rejection passes through; a 401 with a failing
refresh (uninitialized service) rejects with the refresh error; a 404 on the
replay passes through with a single refresh. -/
theorem C6_witness :
    (runGatewayRequest sampleTokenSvc sampleStore (some resp200)
        (.httpError 500) (.ok "done") =
      { store := sampleStore, refreshCalls := 0, attempts := 1
        authHeaders := [bearerHeader sampleStore]
        outcome := .httpError 500 }) ∧
      ((runGatewayRequest AuthTokenServiceState.initial sampleStore none
          (.httpError 401) (.ok "done")).outcome =
            .refreshError .noClientId ∧
        (runGatewayRequest AuthTokenServiceState.initial sampleStore none
          (.httpError 401) (.ok "done")).attempts = 1) ∧
      ((runGatewayRequest sampleTokenSvc sampleStore (some resp200)
          (.httpError 401) (.httpError 404)).outcome = .httpError 404 ∧
        (runGatewayRequest sampleTokenSvc sampleStore (some resp200)
          (.httpError 401) (.httpError 404)).refreshCalls = 1) :=
  ⟨(C6_gateway_error_propagation sampleTokenSvc sampleStore (some resp200)
      (.ok "done")).1 500 (by decide),
    (C6_gateway_error_propagation AuthTokenServiceState.initial sampleStore
      none (.ok "done")).2.1 .noClientId rfl,
    (C6_gateway_error_propagation sampleTokenSvc sampleStore (some resp200)
      (.httpError 404)).2.2 sampleTokenResponse 404 rfl rfl⟩
